import Mathlib

/-!
Verification of the persona-interest plugin (src/main.py) against its
natural-language specification.

The Python source is shallowly embedded: the history cache (a Python dict
from session id to list of turn dicts) becomes an association list with
Python dict semantics (first-match lookup, insertion-order append of new
keys); `_save_history` / `_load_history` become pure state transformers on
a `Store` carrying the in-memory cache and the durable JSON document;
the `interest_analyzer` event handler becomes a pure function from its
inputs (configuration, event fields, request, the external classifier's
response text, the random draw) to an output record collecting every
observable effect (new store, new request prompt, whether the event was
stopped, how many times `_save_history` was invoked, the transient
emotion metadata) plus ghost observations of intermediate values (the
turn appended, the history slice used for analysis, the rendered current
message and prompt).

External collaborators are abstracted at their boundary exactly as the
spec prescribes: the classifier provider is an oracle supplying
`responseText`; Python's `json.loads` together with the subsequent
`.get`-with-default field accesses (main.py lines 132, 134, 148-149) is
abstracted as a caller-supplied `jsonLoads : String -> Option Verdict`
(returning `none` when `json.loads` raises or the decoded value is not a
dict, both of which land in the same `except` handler); `random.random()`
is an arbitrary rational in [0,1).
-/

namespace PIC

/-- One entry of a session's log, translating the dicts built at
main.py lines 95-100 (user turns) and 173-181 (assistant turns).
Optional fields model keys that may be absent from the Python dict;
`state` models the optional two-field emotion dict. -/
structure Turn where
  role : String
  content : String
  sender_id : Option String := none
  sender_name : Option String := none
  state : Option (String × String) := none
deriving DecidableEq, Repr

/-- The in-memory history cache `self.history_cache : Dict[str, list]`,
as an association list with Python-dict semantics. -/
abbrev Cache := List (String × List Turn)

/-- JSON values as stored in the durable document
`data/persona_interest_history.json`; the document written by the code
only ever contains objects, arrays and strings. -/
inductive Json where
  | str (s : String)
  | arr (xs : List Json)
  | obj (fields : List (String × Json))
deriving Repr

/-- Python `self.history_cache.get(session_id, [])` / first-match dict
lookup returning the empty log for an absent key. -/
def lookupD : Cache → String → List Turn
  | [], _ => []
  | (k', l) :: rest, k => if k' = k then l else lookupD rest k

/-- Python `session_id in self.history_cache` (main.py line 218). -/
def hasKey : Cache → String → Bool
  | [], _ => false
  | (k', _) :: rest, k => if k' = k then true else hasKey rest k

/-- Python `self.history_cache.setdefault(session_id, []).append(entry)`
(main.py line 101): append to the existing log, or insert a fresh
one-element log at the end (dicts preserve insertion order). -/
def setdefaultAppend : Cache → String → Turn → Cache
  | [], k, t => [(k, [t])]
  | (k', l) :: rest, k, t =>
      if k' = k then (k', l ++ [t]) :: rest
      else (k', l) :: setdefaultAppend rest k t

/-- Python `del self.history_cache[session_id]` (main.py line 219). -/
def delKey : Cache → String → Cache
  | [], _ => []
  | (k', l) :: rest, k => if k' = k then delKey rest k else (k', l) :: delKey rest k

/-- Python tail slice `lst[-n:]` (main.py line 47). For `n = 0` the
slice `lst[-0:]` is `lst[0:]`, i.e. the WHOLE list; for `n > 0` it is
the last `min n (length lst)` elements. -/
def pyTailSlice (n : Nat) (l : List α) : List α :=
  if n = 0 then l else l.drop (l.length - n)

/-- The trim loop of `_save_history` (main.py lines 46-47): every
session's log is replaced by its Python `[-max_len:]` slice. -/
def trimAll (maxLen : Nat) (c : Cache) : Cache :=
  c.map (fun p => (p.1, pyTailSlice maxLen p.2))

/-- Serialization of one turn dict by `json.dumps`: the fields, in the
dict's insertion order, with absent optional keys omitted. -/
def turnToJson (t : Turn) : Json :=
  Json.obj
    ([("role", Json.str t.role)]
      ++ (match t.sender_id with
          | some s => [("sender_id", Json.str s)]
          | none => [])
      ++ (match t.sender_name with
          | some s => [("sender_name", Json.str s)]
          | none => [])
      ++ [("content", Json.str t.content)]
      ++ (match t.state with
          | some (i, f) =>
              [("state", Json.obj [("interest", Json.str i), ("feeling", Json.str f)])]
          | none => []))

/-- Serialization of the full mapping: the single JSON document written
by `_save_history` (main.py line 50). -/
def cacheToJson (c : Cache) : Json :=
  Json.obj (c.map (fun p => (p.1, Json.arr (p.2.map turnToJson))))

/-- Field lookup in a JSON object (first match). -/
def getField : List (String × Json) → String → Option Json
  | [], _ => none
  | (k, v) :: rest, key => if k = key then some v else getField rest key

/-- Read a JSON string. -/
def asStr : Json → Option String
  | Json.str s => some s
  | _ => none

/-- Decode the optional emotion-state object. -/
def asState : Json → Option (String × String)
  | Json.obj fs =>
      match getField fs "interest", getField fs "feeling" with
      | some (Json.str i), some (Json.str f) => some (i, f)
      | _, _ => none
  | _ => none

/-- Decode one turn from the durable document back into the typed
model; partial inverse of `turnToJson`. -/
def jsonToTurn : Json → Option Turn
  | Json.obj fs =>
      (match getField fs "role", getField fs "content" with
       | some (Json.str r), some (Json.str c) =>
           some { role := r, content := c,
                  sender_id := (getField fs "sender_id").bind asStr,
                  sender_name := (getField fs "sender_name").bind asStr,
                  state := (getField fs "state").bind asState }
       | _, _ => none)
  | _ => none

/-- Decode a list of turns. -/
def decodeTurns : List Json → Option (List Turn)
  | [] => some []
  | j :: rest =>
      match jsonToTurn j, decodeTurns rest with
      | some t, some ts => some (t :: ts)
      | _, _ => none

/-- Decode one session entry of the document. -/
def decodeSession (p : String × Json) : Option (String × List Turn) :=
  match p.2 with
  | Json.arr xs =>
      match decodeTurns xs with
      | some ts => some (p.1, ts)
      | none => none
  | _ => none

/-- Decode the session entries of the document. -/
def decodeSessions : List (String × Json) → Option Cache
  | [] => some []
  | p :: rest =>
      match decodeSession p, decodeSessions rest with
      | some e, some es => some (e :: es)
      | _, _ => none

/-- Decode the full durable document back into the typed cache; partial
inverse of `cacheToJson`. -/
def jsonToCache : Json → Option Cache
  | Json.obj fs => decodeSessions fs
  | _ => none

/-- Process state: the in-memory cache plus the durable document
(`none` models a missing `data/persona_interest_history.json`). -/
structure Store where
  cache : Cache
  file : Option Json

/-- Embedding of `_save_history` (main.py lines 42-52): under the store
lock, trim every session's log to its Python `[-max_len:]` slice, then
overwrite the durable document with the full trimmed mapping serialized
as one JSON document. -/
def save_history (maxLen : Nat) (st : Store) : Store :=
  let c := trimAll maxLen st.cache
  { cache := c, file := some (cacheToJson c) }

/-- Embedding of `_load_history` (main.py lines 32-40): a missing file
leaves the cache as it is (empty at startup); otherwise the document is
read back. `jsonToCache` returning `none` corresponds to a document not
of the cache's shape; documents written by `save_history` always decode
(proved below), matching the Python code, which assigns the parsed
document unconditionally. A file whose text `json.loads` cannot parse
is logged and the cache kept — also the `none` branch. -/
def load_history (file : Option Json) (cache : Cache) : Cache :=
  match file with
  | none => cache
  | some d =>
      match jsonToCache d with
      | some c => c
      | none => cache

/-- Left brace character. -/
def lbrace : Char := Char.ofNat 123

/-- Right brace character. -/
def rbrace : Char := Char.ofNat 125

/-- Embedding of `re.search(r"\x7b.*\x7d", response_text, re.DOTALL)`
followed by `.group(0)` (main.py lines 128-131): with DOTALL the dot
matches newlines, and the greedy match is exactly the substring running
from the first left brace to the last right brace, provided the first
left brace lies strictly before the last right brace; otherwise there
is no match. -/
def extractBraced (s : String) : Option String :=
  let cs := s.data
  match cs.findIdx? (fun c => c = lbrace) with
  | none => none
  | some i =>
    match cs.reverse.findIdx? (fun c => c = rbrace) with
    | none => none
    | some rj =>
      let j := cs.length - 1 - rj
      if i < j then some (String.mk ((cs.drop i).take (j + 1 - i))) else none

/-- Plugin configuration, with the defaults used by the
`self.config.get(...)` calls in main.py (lines 45, 79, 85, 119, 141,
178). `analysis_system_prompt` is `Option` because `config.get` returns
`None` for an absent key, which later raises inside the `try` block. -/
structure Config where
  whitelist : List String := []
  analysis_provider_id : Option String := none
  analysis_system_prompt : Option String := none
  history_max_length : Nat := 20
  random_reply_chance : ℚ := 1
  record_emotion_in_history : Bool := false

/-- The fields of the host platform's message event read by the plugin.
`group_id` is the empty string for a private chat, matching the host
API, whose `get_group_id()` returns a falsy value there. -/
structure Event where
  group_id : String
  sender_id : String
  sender_name : String
  platform_name : String
  unified_msg_origin : String
  is_at_or_wake_command : Bool
deriving DecidableEq, Repr

/-- Digest of one successfully decoded classifier verdict, abstracting
`json.loads` plus the `.get`-with-default accesses at main.py lines
134, 135, 148, 149: `should_reply` is the truthiness of the dict's
`should_reply` value (default `True`), `reason` is only ever logged,
`interest` and `feeling` default to `"normal"` / `"neutral"`. -/
structure Verdict where
  should_reply : Bool
  reason : Option String := none
  interest : String := "normal"
  feeling : String := "neutral"
deriving DecidableEq, Repr

/-- Python `a or b` on strings: the empty string is falsy
(main.py lines 90, 110). -/
def pyOrS (a b : String) : String := if a = "" then b else a

/-- Content used when the request carries no prompt: Python
`req.prompt or "User sent an empty or non-text message."`
(main.py line 93); both `None` and the empty string are falsy. -/
def placeholderMessage : String := "User sent an empty or non-text message."

/-- Python `req.prompt or placeholder` (main.py line 93). -/
def currentMessageOf (reqPrompt : Option String) : String :=
  match reqPrompt with
  | none => placeholderMessage
  | some s => if s = "" then placeholderMessage else s

/-- The user history entry built at main.py lines 95-100. -/
def userEntryOf (ev : Event) (reqPrompt : Option String) : Turn :=
  { role := "user",
    sender_id := some ev.sender_id,
    sender_name := some ev.sender_name,
    content :=
      if ev.is_at_or_wake_command
      then "[Direct Mention] " ++ currentMessageOf reqPrompt
      else currentMessageOf reqPrompt,
    state := none }

/-- `format_history_entry` (main.py lines 105-108). -/
def format_history_entry (msg : Turn) : String :=
  if msg.role = "user" then
    "user (" ++ msg.sender_name.getD "unknown" ++ "/" ++ msg.sender_id.getD "0"
      ++ "): " ++ msg.content
  else
    "assistant: " ++ msg.content

/-- The formatted prior history (main.py line 110): entries joined by
newlines, or the fixed sentinel when the join is empty. -/
def formatHistory (l : List Turn) : String :=
  pyOrS (String.intercalate "\n" (l.map format_history_entry))
    "No previous conversation history."

/-- The awakening-context note (main.py lines 113-115). -/
def awakeningContextStr : String :=
  "IMPORTANT CONTEXT: The user has directly awakened you..."

/-- Awakening context chosen by the mention flag (main.py lines 113-115). -/
def awakeningOf (ev : Event) : String :=
  if ev.is_at_or_wake_command then awakeningContextStr else ""

/-- The four placeholder substitutions building the analysis prompt
(main.py lines 120-123); `String.replace` replaces every occurrence,
as Python `str.replace` does. -/
def renderAnalysisPrompt (tmpl awakening persona hist cur : String) : String :=
  (((tmpl.replace "\x7bawakening_context\x7d" awakening).replace
      "\x7bpersona\x7d" persona).replace
      "\x7bhistory\x7d" hist).replace
      "\x7bcurrent_message\x7d" cur

/-- Single-quote character, used inside the injected prompt text. -/
def sq : String := String.singleton (Char.ofNat 39)

/-- Rendering of `req.prompt` inside an f-string: Python prints `None`
for a missing prompt. -/
def optionPromptStr : Option String → String
  | none => "None"
  | some s => s

/-- The final injected prompt (main.py line 155; line 154 computes the
opposite ordering and is immediately overwritten — dead code per the
spec's design note). -/
def injectionWrapper (interest feeling : String) (reqPrompt : Option String) : String :=
  "User" ++ sq ++ "s message is: \"" ++ optionPromptStr reqPrompt
    ++ "\"\n\n[[System Note: Your current state is - Interest: " ++ sq ++ interest ++ sq
    ++ ", Feeling: " ++ sq ++ feeling ++ sq
    ++ ". You MUST respond according to this state.]]"

/-- Python `event.get_group_id() or event.get_sender_id()`
(main.py line 78). -/
def subjectOf (ev : Event) : String :=
  if ev.group_id = "" then ev.sender_id else ev.group_id

/-- Python `if not analysis_provider_id: return` (main.py lines 85-86):
the id must be present and non-empty. -/
def providerConfigured (cfg : Config) : Bool :=
  match cfg.analysis_provider_id with
  | none => false
  | some s => !(s == "")

/-- All inputs of one `interest_analyzer` invocation. `personaLookup`
is the result of `_get_current_persona_prompt` (an external lookup
returning `""` on any failure); `providerOk` is whether
`get_provider_by_id` returns a provider; `responseText` is the external
classifier's `completion_text`; `jsonLoads` abstracts `json.loads` plus
the subsequent dict accesses (`none` = the `except` path); `rand` is
the `random.random()` draw. -/
structure AnalyzerInput where
  cfg : Config
  ev : Event
  reqPrompt : Option String
  reqSystemPrompt : String
  personaLookup : String
  providerOk : Bool
  responseText : String
  jsonLoads : String → Option Verdict
  rand : ℚ

/-- Every observable effect of one `interest_analyzer` invocation,
plus ghost observations of intermediate values of the run (all `none`
when the run returns before step 5). -/
structure AnalyzerOutput where
  store : Store
  reqPrompt : Option String
  stopped : Bool
  saveCount : Nat
  emotion : Option (String × String)
  builtPrompt : Option String
  appendedTurn : Option Turn
  historyForAnalysis : Option (List Turn)
  currentForAnalysis : Option String
  cacheAtClassify : Option Cache

/-- Output of the early-return paths (main.py lines 79-88): nothing is
touched. -/
def passOutput (st : Store) (p : Option String) : AnalyzerOutput :=
  { store := st, reqPrompt := p, stopped := false, saveCount := 0, emotion := none,
    builtPrompt := none, appendedTurn := none, historyForAnalysis := none,
    currentForAnalysis := none, cacheAtClassify := none }

/-- The body of `interest_analyzer` from step 4 on (main.py lines
90-161), reached once the whitelist, platform and provider gates have
passed: build the user turn, append it, format the prior history, then
run the `try` block — render the prompt, call the classifier, extract
and decode a verdict, and apply the verdict / probabilistic gate /
prompt injection. Any exception inside the `try` (absent template,
undecodable verdict) lands in the `except` handler, which only logs. -/
def analyzerMain (inp : AnalyzerInput) (st : Store) : AnalyzerOutput :=
  let persona := pyOrS inp.personaLookup inp.reqSystemPrompt
  let sess := inp.ev.unified_msg_origin
  let e := userEntryOf inp.ev inp.reqPrompt
  let cache1 := setdefaultAppend st.cache sess e
  let hfa := (lookupD cache1 sess).dropLast
  let base : AnalyzerOutput :=
    { store := { cache := cache1, file := st.file },
      reqPrompt := inp.reqPrompt, stopped := false, saveCount := 0, emotion := none,
      builtPrompt := none, appendedTurn := some e, historyForAnalysis := some hfa,
      currentForAnalysis := some (format_history_entry e), cacheAtClassify := some cache1 }
  match inp.cfg.analysis_system_prompt with
  | none => base
  | some tmpl =>
    let analysisPrompt :=
      renderAnalysisPrompt tmpl (awakeningOf inp.ev) persona (formatHistory hfa)
        (format_history_entry e)
    let base2 := { base with builtPrompt := some analysisPrompt }
    match extractBraced inp.responseText with
    | none => base2
    | some js =>
      match inp.jsonLoads js with
      | none => base2
      | some v =>
        if v.should_reply = false then
          { base2 with
              store := save_history inp.cfg.history_max_length { cache := cache1, file := st.file },
              stopped := true, saveCount := 1 }
        else if inp.cfg.random_reply_chance < inp.rand then
          { base2 with
              store := save_history inp.cfg.history_max_length { cache := cache1, file := st.file },
              stopped := true, saveCount := 1 }
        else
          { base2 with
              reqPrompt := some (injectionWrapper v.interest v.feeling inp.reqPrompt),
              emotion := some (v.interest, v.feeling) }

/-- Embedding of the `interest_analyzer` handler (main.py lines
77-161): the whitelist gate, the platform gate, and the
provider-configuration and provider-resolution gates, each returning
untouched, then the main body. -/
def interest_analyzer (inp : AnalyzerInput) (st : Store) : AnalyzerOutput :=
  if subjectOf inp.ev ∈ inp.cfg.whitelist then
    if inp.ev.platform_name = "aiocqhttp" then
      if providerConfigured inp.cfg then
        if inp.providerOk then analyzerMain inp st
        else passOutput st inp.reqPrompt
      else passOutput st inp.reqPrompt
    else passOutput st inp.reqPrompt
  else passOutput st inp.reqPrompt

/-- Result of the `sir clear` command (main.py lines 215-223). -/
structure ClearOutput where
  store : Store
  message : String
  deleted : Bool
  saveCount : Nat

/-- Embedding of `clear_history` (main.py lines 215-223): if the
session has a log, delete it, save (which trims the remaining sessions
and rewrites the document) and report the deletion; otherwise report
that there is nothing to clear. -/
def clear_history (maxLen : Nat) (sess : String) (st : Store) : ClearOutput :=
  if hasKey st.cache sess then
    { store := save_history maxLen { cache := delKey st.cache sess, file := st.file },
      message := "当前会话的聊天记录已清空。", deleted := true, saveCount := 1 }
  else
    { store := st, message := "当前会话没有聊天记录可清空。", deleted := false, saveCount := 0 }

/-- Atomic actions on the shared store, for the locking-discipline
model: acquiring/releasing `self.history_lock`, reading/mutating
`self.history_cache`, and reading/writing the durable file. -/
inductive StoreAction where
  | acquire
  | release
  | cacheMutate
  | cacheRead
  | fileWrite
  | fileRead
deriving DecidableEq, Repr

/-- Action trace of `append` — the `setdefault(...).append(...)` at
main.py line 101: the cache is mutated with no lock acquisition. -/
def appendActions : List StoreAction := [StoreAction.cacheMutate]

/-- Action trace of `readAll` — the cache reads at main.py lines 103
and 195: no lock acquisition. -/
def readAllActions : List StoreAction := [StoreAction.cacheRead]

/-- Action trace of `persist` — `_save_history` (main.py lines 42-52):
trim-mutation and file write inside the lock. -/
def persistActions : List StoreAction :=
  [StoreAction.acquire, StoreAction.cacheMutate, StoreAction.fileWrite, StoreAction.release]

/-- Action trace of `restore` — `_load_history` (main.py lines 32-40):
file read and cache assignment inside the lock. -/
def restoreActions : List StoreAction :=
  [StoreAction.acquire, StoreAction.fileRead, StoreAction.cacheMutate, StoreAction.release]

/-- Action trace of `clear` — `clear_history` (main.py lines 215-223):
the membership test and the `del` happen with no lock held, then
`_save_history` runs its own locked trace. -/
def clearActions : List StoreAction :=
  [StoreAction.cacheRead, StoreAction.cacheMutate] ++ persistActions

/-- Helper for `underLock`: tracks the lock-hold depth along a trace
and checks that every cache/file access happens at positive depth. -/
def underLockAux : Nat → List StoreAction → Bool
  | _, [] => true
  | d, StoreAction.acquire :: rest => underLockAux (d + 1) rest
  | d, StoreAction.release :: rest => underLockAux (d - 1) rest
  | d, _ :: rest => decide (0 < d) && underLockAux d rest

/-- Whether every store access in the trace happens while the store's
lock is held. -/
def underLock (l : List StoreAction) : Bool := underLockAux 0 l

/-- Whether the analyzer finds no verdict in the classifier's text:
either no brace-delimited substring exists (main.py lines 128-129), or
decoding the extracted substring fails (main.py line 132, caught by the
handler at lines 160-161). -/
def parsesNoVerdictB (loads : String → Option Verdict) (txt : String) : Bool :=
  match extractBraced txt with
  | none => true
  | some js => (loads js).isNone

/-! Concrete fixtures used by closed witnesses and counterexamples. -/

/-- A user turn as built by the plugin. -/
def turnW : Turn :=
  { role := "user", content := "hi", sender_id := some "42", sender_name := some "alice" }

/-- An assistant turn with Unicode content and an attached state. -/
def turnU : Turn :=
  { role := "assistant", content := "你好 🙂 — ünïcode", state := some ("high", "curious") }

/-- Fresh store: empty cache, no durable file yet. -/
def storeEmpty : Store := { cache := [], file := none }

/-- Store with one session `"s"` holding one turn. -/
def storeOne : Store := { cache := [("s", [turnW])], file := none }

/-- Store whose session `"sess1"` (the event's origin) holds one turn. -/
def storeSess : Store := { cache := [("sess1", [turnW])], file := none }

/-- A private-chat event from whitelisted sender 42 on the supported
platform. -/
def evW : Event :=
  { group_id := "", sender_id := "42", sender_name := "alice",
    platform_name := "aiocqhttp", unified_msg_origin := "sess1",
    is_at_or_wake_command := false }

/-- A configuration whose whitelist contains subject 42, with a
provider and a template configured. -/
def cfgW : Config :=
  { whitelist := ["42"], analysis_provider_id := some "p",
    analysis_system_prompt := some "H:\x7bhistory\x7d|C:\x7bcurrent_message\x7d" }

/-- Same configuration with `random_reply_chance = 0`. -/
def cfgGate : Config := { cfgW with random_reply_chance := 0 }

/-- A concrete instance of the `json.loads` abstraction for the blobs
occurring in the closed runs below: the blob `\x7b"should_reply": true\x7d`
decodes to a dict whose digest is the all-defaults verdict with
`should_reply = true`; any other string fails to decode. -/
def loadsW : String → Option Verdict :=
  fun s => if s = "\x7b\"should_reply\": true\x7d" then some { should_reply := true } else none

/-- A whitelisted run whose classifier response contains no braces. -/
def inpC2 : AnalyzerInput :=
  { cfg := cfgW, ev := evW, reqPrompt := some "hello", reqSystemPrompt := "sys",
    personaLookup := "persona", providerOk := true, responseText := "no json here",
    jsonLoads := loadsW, rand := 0 }

/-- A run with `random_reply_chance = 0`, a classifier-approved verdict
and the drawn value exactly 0. -/
def inpGate : AnalyzerInput :=
  { cfg := cfgGate, ev := evW, reqPrompt := some "hello", reqSystemPrompt := "sys",
    personaLookup := "persona", providerOk := true,
    responseText := "\x7b\"should_reply\": true\x7d", jsonLoads := loadsW, rand := 0 }

/-- Same run with the drawn value 1/2. -/
def inpGateHit : AnalyzerInput := { inpGate with rand := mkRat 1 2 }

/-- A whitelisted run whose classifier response yields no verdict. -/
def inpC4 : AnalyzerInput :=
  { cfg := cfgW, ev := evW, reqPrompt := some "hi there", reqSystemPrompt := "sys",
    personaLookup := "persona", providerOk := true, responseText := "no json here",
    jsonLoads := loadsW, rand := 0 }

/-- A run whose subject is not in the whitelist. -/
def inpC6 : AnalyzerInput :=
  { inpC2 with cfg := { cfgW with whitelist := ["99"] } }

/-- A whitelisted run with an empty request prompt. -/
def inpC10 : AnalyzerInput := { inpC2 with reqPrompt := some "" }

/-! Helper lemmas about the store operations. -/

theorem lookupD_setdefaultAppend_self (c : Cache) (k : String) (t : Turn) :
    lookupD (setdefaultAppend c k t) k = lookupD c k ++ [t] := by
  induction c with
  | nil => simp [setdefaultAppend, lookupD]
  | cons p rest ih =>
      obtain ⟨k', l⟩ := p
      by_cases h : k' = k <;> simp [setdefaultAppend, lookupD, h, ih]

theorem lookupD_trimAll (n : Nat) (c : Cache) (k : String) :
    lookupD (trimAll n c) k = pyTailSlice n (lookupD c k) := by
  induction c with
  | nil => simp [trimAll, lookupD, pyTailSlice]
  | cons p rest ih =>
      obtain ⟨k', l⟩ := p
      by_cases h : k' = k <;> simp [trimAll, lookupD, h] at ih ⊢ <;> simpa [trimAll] using ih

theorem lookupD_delKey (c : Cache) (k : String) :
    lookupD (delKey c k) k = [] := by
  induction c with
  | nil => simp [delKey, lookupD]
  | cons p rest ih =>
      obtain ⟨k', l⟩ := p
      by_cases h : k' = k <;> simp [delKey, lookupD, h, ih]

theorem hasKey_delKey (c : Cache) (k : String) :
    hasKey (delKey c k) k = false := by
  induction c with
  | nil => simp [delKey, hasKey]
  | cons p rest ih =>
      obtain ⟨k', l⟩ := p
      by_cases h : k' = k <;> simp [delKey, hasKey, h, ih]

theorem hasKey_trimAll (n : Nat) (c : Cache) (k : String) :
    hasKey (trimAll n c) k = hasKey c k := by
  induction c with
  | nil => simp [trimAll, hasKey]
  | cons p rest ih =>
      obtain ⟨k', l⟩ := p
      by_cases h : k' = k <;> simp [trimAll, hasKey, h] at ih ⊢ <;> simpa [trimAll] using ih

theorem pyTailSlice_pos (n : Nat) (h : 1 ≤ n) (l : List α) :
    pyTailSlice n l = l.drop (l.length - n) := by
  have : n ≠ 0 := Nat.one_le_iff_ne_zero.mp h
  simp [pyTailSlice, this]

theorem pyTailSlice_length_le (n : Nat) (h : 1 ≤ n) (l : List α) :
    (pyTailSlice n l).length ≤ n := by
  rw [pyTailSlice_pos n h, List.length_drop]
  omega

/-! Helper lemmas for the serialization round trip. -/

theorem jsonToTurn_turnToJson (t : Turn) : jsonToTurn (turnToJson t) = some t := by
  obtain ⟨r, c, sid, sname, stt⟩ := t
  cases sid <;> cases sname <;> cases stt <;> rfl

theorem decodeTurns_map (l : List Turn) :
    decodeTurns (l.map turnToJson) = some l := by
  induction l with
  | nil => rfl
  | cons t rest ih => simp [decodeTurns, jsonToTurn_turnToJson, ih]

theorem jsonToCache_cacheToJson (c : Cache) :
    jsonToCache (cacheToJson c) = some c := by
  induction c with
  | nil => rfl
  | cons p rest ih =>
      obtain ⟨k, l⟩ := p
      simp only [cacheToJson, jsonToCache, List.map_cons, decodeSessions, decodeSession,
        decodeTurns_map] at ih ⊢
      rw [ih]

theorem pyTailSlice_nil (n : Nat) : pyTailSlice n ([] : List Turn) = [] := by
  cases n <;> simp [pyTailSlice]

theorem dropLast_append_singleton (l : List α) (a : α) : (l ++ [a]).dropLast = l := by
  simp

/-! Helper lemmas about the analyzer. -/

theorem interest_analyzer_gates (inp : AnalyzerInput) (st : Store)
    (hw : subjectOf inp.ev ∈ inp.cfg.whitelist)
    (hp : inp.ev.platform_name = "aiocqhttp")
    (hc : providerConfigured inp.cfg = true)
    (hok : inp.providerOk = true) :
    interest_analyzer inp st = analyzerMain inp st := by
  unfold interest_analyzer
  rw [if_pos hw, if_pos hp, if_pos hc, if_pos hok]

theorem analyzerMain_noVerdict (inp : AnalyzerInput) (st : Store)
    (h : parsesNoVerdictB inp.jsonLoads inp.responseText = true) :
    (analyzerMain inp st).reqPrompt = inp.reqPrompt ∧
    (analyzerMain inp st).stopped = false ∧
    (analyzerMain inp st).emotion = none ∧
    (analyzerMain inp st).saveCount = 0 ∧
    (analyzerMain inp st).store.file = st.file ∧
    (analyzerMain inp st).store.cache
      = setdefaultAppend st.cache inp.ev.unified_msg_origin (userEntryOf inp.ev inp.reqPrompt) := by
  unfold parsesNoVerdictB at h
  unfold analyzerMain
  cases htm : inp.cfg.analysis_system_prompt with
  | none => simp [htm]
  | some tmpl =>
      cases hex : extractBraced inp.responseText with
      | none => simp [htm, hex]
      | some js =>
          rw [hex] at h
          simp only [Option.isNone_iff_eq_none] at h
          cases hld : inp.jsonLoads js with
          | none => simp [htm, hex, hld]
          | some v => rw [hld] at h; simp at h

theorem noVerdict_passthrough (inp : AnalyzerInput) (st : Store)
    (h : parsesNoVerdictB inp.jsonLoads inp.responseText = true) :
    (interest_analyzer inp st).reqPrompt = inp.reqPrompt ∧
    (interest_analyzer inp st).stopped = false ∧
    (interest_analyzer inp st).emotion = none ∧
    (interest_analyzer inp st).saveCount = 0 := by
  have hm := analyzerMain_noVerdict inp st h
  unfold interest_analyzer
  split
  · split
    · split
      · split
        · exact ⟨hm.1, hm.2.1, hm.2.2.1, hm.2.2.2.1⟩
        · simp [passOutput]
      · simp [passOutput]
    · simp [passOutput]
  · simp [passOutput]

theorem analyzerMain_ghost (inp : AnalyzerInput) (st : Store) :
    (analyzerMain inp st).appendedTurn = some (userEntryOf inp.ev inp.reqPrompt) ∧
    (analyzerMain inp st).cacheAtClassify
      = some (setdefaultAppend st.cache inp.ev.unified_msg_origin
          (userEntryOf inp.ev inp.reqPrompt)) ∧
    (analyzerMain inp st).historyForAnalysis
      = some (lookupD st.cache inp.ev.unified_msg_origin) ∧
    (analyzerMain inp st).currentForAnalysis
      = some (format_history_entry (userEntryOf inp.ev inp.reqPrompt)) := by
  have hdl : (lookupD (setdefaultAppend st.cache inp.ev.unified_msg_origin
      (userEntryOf inp.ev inp.reqPrompt)) inp.ev.unified_msg_origin).dropLast
      = lookupD st.cache inp.ev.unified_msg_origin := by
    rw [lookupD_setdefaultAppend_self, dropLast_append_singleton]
  unfold analyzerMain
  refine ⟨?_, ?_, ?_, ?_⟩ <;> (repeat' split) <;> simp [hdl]

theorem analyzerMain_builtPrompt (inp : AnalyzerInput) (st : Store) (tmpl : String)
    (htm : inp.cfg.analysis_system_prompt = some tmpl) :
    (analyzerMain inp st).builtPrompt
      = some (renderAnalysisPrompt tmpl (awakeningOf inp.ev)
          (pyOrS inp.personaLookup inp.reqSystemPrompt)
          (formatHistory (lookupD st.cache inp.ev.unified_msg_origin))
          (format_history_entry (userEntryOf inp.ev inp.reqPrompt))) := by
  have hdl : (lookupD (setdefaultAppend st.cache inp.ev.unified_msg_origin
      (userEntryOf inp.ev inp.reqPrompt)) inp.ev.unified_msg_origin).dropLast
      = lookupD st.cache inp.ev.unified_msg_origin := by
    rw [lookupD_setdefaultAppend_self, dropLast_append_singleton]
  unfold analyzerMain
  simp only [htm]
  (repeat' split) <;> simp [hdl]

/-! Claim C1. -/

/-- C1 counterexample: the claim quantifies over every configured
`history_max_length ≥ 0`, but with `history_max_length = 0` the Python
slice `lst[-0:]` is `lst[0:]`, the whole list, so after `persist()` the
session's one-turn log still has length 1, not ≤ 0. -/
theorem c1_persist_trim_cex :
    lookupD (save_history 0 storeOne).cache "s" = [turnW] ∧
    ¬ ((lookupD (save_history 0 storeOne).cache "s").length ≤ 0) := by
  decide

/-- C1 (amended): for every configured `history_max_length ≥ 1` and
every store state, after `save_history` each session's in-memory log
has length at most `history_max_length` and is exactly the final
(most recent, arrival-ordered) segment of the previous log, and the
durable document is an overwrite with the full trimmed mapping
serialized as one JSON document; with `history_max_length = 0` the code
keeps every log whole. -/
theorem c1_persist_trim (maxLen : Nat) (h : 1 ≤ maxLen) (st : Store) (k : String) :
    (lookupD (save_history maxLen st).cache k).length ≤ maxLen ∧
    lookupD (save_history maxLen st).cache k
      = (lookupD st.cache k).drop ((lookupD st.cache k).length - maxLen) ∧
    (save_history maxLen st).file = some (cacheToJson (trimAll maxLen st.cache)) := by
  have hc : (save_history maxLen st).cache = trimAll maxLen st.cache := rfl
  refine ⟨?_, ?_, rfl⟩
  · rw [hc, lookupD_trimAll]
    exact pyTailSlice_length_le maxLen h _
  · rw [hc, lookupD_trimAll]
    exact pyTailSlice_pos maxLen h _

/-- C1 witness: the amended theorem applied at `history_max_length = 1`
and the one-turn store. -/
theorem c1_persist_trim_witness :
    1 ≤ 1 ∧
    ((lookupD (save_history 1 storeOne).cache "s").length ≤ 1 ∧
     lookupD (save_history 1 storeOne).cache "s"
       = (lookupD storeOne.cache "s").drop ((lookupD storeOne.cache "s").length - 1) ∧
     (save_history 1 storeOne).file = some (cacheToJson (trimAll 1 storeOne.cache))) :=
  ⟨Nat.le_refl 1, c1_persist_trim 1 (Nat.le_refl 1) storeOne "s"⟩

/-! Claim C2. -/

/-- C2: verdict parsing takes the substring from the first left brace
through the last right brace (greedy, spanning newlines) and attempts
decoding; `"no json here"` (no braces) and `"\x7bbroken"` (no closing
brace) yield no verdict, the total function `extractBraced` never
raises, and whenever no verdict parses the analyzer leaves the outbound
request unchanged (prompt untouched, event not stopped, no emotion
metadata attached). -/
theorem c2_verdict_parse (inp : AnalyzerInput) (st : Store)
    (h : parsesNoVerdictB inp.jsonLoads inp.responseText = true) :
    extractBraced "no json here" = none ∧
    extractBraced "\x7bbroken" = none ∧
    extractBraced "x\x7ba\nb\x7dc\x7dy" = some "\x7ba\nb\x7dc\x7d" ∧
    (interest_analyzer inp st).reqPrompt = inp.reqPrompt ∧
    (interest_analyzer inp st).stopped = false ∧
    (interest_analyzer inp st).emotion = none := by
  have hp := noVerdict_passthrough inp st h
  exact ⟨by decide, by decide, by decide, hp.1, hp.2.1, hp.2.2.1⟩

/-- C2 witness: the theorem applied to the concrete run whose
classifier response is `"no json here"`. -/
theorem c2_verdict_parse_witness :
    parsesNoVerdictB inpC2.jsonLoads inpC2.responseText = true ∧
    ((interest_analyzer inpC2 storeEmpty).reqPrompt = inpC2.reqPrompt ∧
     (interest_analyzer inpC2 storeEmpty).stopped = false ∧
     (interest_analyzer inpC2 storeEmpty).emotion = none) := by
  have h := c2_verdict_parse inpC2 storeEmpty (by decide)
  exact ⟨by decide, h.2.2.2.1, h.2.2.2.2.1, h.2.2.2.2.2⟩

/-! Claim C3. -/

/-- C3 counterexample: the claim says that with
`random_reply_chance = 0.0` every classifier-approved reply is
suppressed for every possible drawn value; but `random.random()` can
return exactly 0.0, and `0.0 > 0.0` is false, so on the run `inpGate`
(chance 0, drawn value 0, approved verdict) the event is NOT stopped
and the pipeline proceeds to the prompt injection. -/
theorem c3_random_gate_cex :
    inpGate.cfg.random_reply_chance = 0 ∧
    (0 : ℚ) ≤ inpGate.rand ∧ inpGate.rand < 1 ∧
    inpGate.jsonLoads "\x7b\"should_reply\": true\x7d" = some { should_reply := true } ∧
    (interest_analyzer inpGate storeEmpty).stopped = false ∧
    (interest_analyzer inpGate storeEmpty).emotion = some ("normal", "neutral") := by
  refine ⟨rfl, by decide, by decide, by decide, by decide, by decide⟩

/-- C3 (amended): one uniform value in [0,1) is drawn and the pipeline
is stopped exactly when it strictly exceeds the configured reply
probability; with `random_reply_chance = 0` every classifier-approved
reply whose drawn value is nonzero is suppressed (the drawn value 0,
though possible, is not), and with the default 1 no reply is ever
suppressed by this step. -/
theorem c3_random_gate (inp : AnalyzerInput) (st : Store) (tmpl js : String) (v : Verdict)
    (hw : subjectOf inp.ev ∈ inp.cfg.whitelist)
    (hp : inp.ev.platform_name = "aiocqhttp")
    (hc : providerConfigured inp.cfg = true)
    (hok : inp.providerOk = true)
    (htm : inp.cfg.analysis_system_prompt = some tmpl)
    (hex : extractBraced inp.responseText = some js)
    (hld : inp.jsonLoads js = some v)
    (hsr : v.should_reply = true) :
    ((interest_analyzer inp st).stopped = true ↔ inp.cfg.random_reply_chance < inp.rand) ∧
    (inp.cfg.random_reply_chance = 0 → 0 < inp.rand →
      (interest_analyzer inp st).stopped = true) ∧
    (inp.cfg.random_reply_chance = 1 → inp.rand < 1 →
      (interest_analyzer inp st).stopped = false) := by
  rw [interest_analyzer_gates inp st hw hp hc hok]
  unfold analyzerMain
  simp only [htm, hex, hld, hsr]
  by_cases hr : inp.cfg.random_reply_chance < inp.rand
  · simp only [if_pos hr]
    refine ⟨by simp [hr], fun _ _ => by simp, fun h1 h2 => ?_⟩
    rw [h1] at hr
    exact absurd (lt_trans hr h2) (lt_irrefl 1)
  · simp only [if_neg hr]
    refine ⟨by simp [hr], fun h1 h2 => ?_, fun _ _ => by simp⟩
    rw [h1] at hr
    exact absurd h2 hr

/-- C3 witness: the amended theorem applied to the concrete run with
chance 0 and drawn value 1/2, which is suppressed. -/
theorem c3_random_gate_witness :
    inpGateHit.cfg.random_reply_chance = 0 ∧ 0 < inpGateHit.rand ∧
    (interest_analyzer inpGateHit storeEmpty).stopped = true := by
  have h := c3_random_gate inpGateHit storeEmpty "H:\x7bhistory\x7d|C:\x7bcurrent_message\x7d"
    "\x7b\"should_reply\": true\x7d" { should_reply := true }
    (by decide) (by decide) (by decide) (by decide) (by decide) (by decide) (by decide) (by decide)
  exact ⟨rfl, by decide, h.2.1 rfl (by decide)⟩

/-! Claim C4. -/

/-- C4 counterexample: on the run `inpC4` no verdict parses; the
analyzer does leave the request unmodified and the user turn is in the
in-memory log, but `_save_history` is never called (the `if not
json_match: return` at main.py line 129 saves nothing), so the durable
file is still absent — the history is NOT persisted before returning,
contrary to the claim. -/
theorem c4_no_persist_cex :
    extractBraced inpC4.responseText = none ∧
    (interest_analyzer inpC4 storeEmpty).store.cache
      = [("sess1", [userEntryOf evW (some "hi there")])] ∧
    (interest_analyzer inpC4 storeEmpty).saveCount = 0 ∧
    (interest_analyzer inpC4 storeEmpty).store.file.isNone = true := by
  decide

/-- C4 (amended): for every classifier response from which no verdict
can be parsed, the analyzer aborts quietly: the outbound request is
left unmodified, the event is not stopped, and the user turn appended
in step 5 remains in the in-memory history — but the history is NOT
persisted to durable storage on this path (`_save_history` is not
called; the turn reaches disk only at some later save). -/
theorem c4_no_verdict_quiet (inp : AnalyzerInput) (st : Store)
    (hw : subjectOf inp.ev ∈ inp.cfg.whitelist)
    (hp : inp.ev.platform_name = "aiocqhttp")
    (hc : providerConfigured inp.cfg = true)
    (hok : inp.providerOk = true)
    (h : parsesNoVerdictB inp.jsonLoads inp.responseText = true) :
    (interest_analyzer inp st).reqPrompt = inp.reqPrompt ∧
    (interest_analyzer inp st).stopped = false ∧
    (interest_analyzer inp st).saveCount = 0 ∧
    (interest_analyzer inp st).store.file = st.file ∧
    (interest_analyzer inp st).store.cache
      = setdefaultAppend st.cache inp.ev.unified_msg_origin (userEntryOf inp.ev inp.reqPrompt) := by
  rw [interest_analyzer_gates inp st hw hp hc hok]
  have hm := analyzerMain_noVerdict inp st h
  exact ⟨hm.1, hm.2.1, hm.2.2.2.1, hm.2.2.2.2.1, hm.2.2.2.2.2⟩

/-- C4 witness: the amended theorem applied to the concrete run
`inpC4`. -/
theorem c4_no_verdict_quiet_witness :
    parsesNoVerdictB inpC4.jsonLoads inpC4.responseText = true ∧
    ((interest_analyzer inpC4 storeEmpty).reqPrompt = inpC4.reqPrompt ∧
     (interest_analyzer inpC4 storeEmpty).stopped = false ∧
     (interest_analyzer inpC4 storeEmpty).saveCount = 0 ∧
     (interest_analyzer inpC4 storeEmpty).store.file = storeEmpty.file ∧
     (interest_analyzer inpC4 storeEmpty).store.cache
       = setdefaultAppend storeEmpty.cache inpC4.ev.unified_msg_origin
           (userEntryOf inpC4.ev inpC4.reqPrompt)) :=
  ⟨by decide,
   c4_no_verdict_quiet inpC4 storeEmpty (by decide) (by decide) (by decide) (by decide) (by decide)⟩

/-! Claim C5. -/

/-- C5 counterexample: the claim says all five HistoryStore operations
run under the store-wide lock, but the cache mutation of `append`
(main.py line 101), the cache read of `readAll` (line 103) and the
membership test and `del` of `clear` (lines 218-219) all touch the
cache with no lock held — only `persist` and `restore` lock. -/
theorem c5_lock_cex :
    ¬ (underLock appendActions = true ∧ underLock readAllActions = true ∧
       underLock clearActions = true ∧ underLock persistActions = true ∧
       underLock restoreActions = true) := by
  decide

/-- C5 (amended): only `persist` (`_save_history`) and `restore`
(`_load_history`) execute under the store-wide mutual-exclusion lock;
`append`, `readAll` and the cache accesses of `clear` run with no lock
held (the `_save_history` call inside `clear` locks only its own
trim-and-write). -/
theorem c5_lock_discipline :
    underLock persistActions = true ∧ underLock restoreActions = true ∧
    underLock appendActions = false ∧ underLock readAllActions = false ∧
    underLock clearActions = false := by
  decide

/-! Claim C6. -/

/-- C6: for every inbound message whose subject identifier (group id if
present, else sender id) is not in the configured allow-list, the
pipeline performs no history mutation at all (every session's log is
unchanged) and leaves the outbound request untouched. -/
theorem c6_whitelist_gate (inp : AnalyzerInput) (st : Store)
    (h : subjectOf inp.ev ∉ inp.cfg.whitelist) :
    interest_analyzer inp st = passOutput st inp.reqPrompt ∧
    (interest_analyzer inp st).store.cache = st.cache ∧
    (interest_analyzer inp st).store.file = st.file ∧
    (interest_analyzer inp st).reqPrompt = inp.reqPrompt ∧
    (interest_analyzer inp st).stopped = false ∧
    (interest_analyzer inp st).saveCount = 0 ∧
    (∀ k, lookupD (interest_analyzer inp st).store.cache k = lookupD st.cache k) := by
  have he : interest_analyzer inp st = passOutput st inp.reqPrompt := by
    unfold interest_analyzer
    rw [if_neg h]
  refine ⟨he, ?_, ?_, ?_, ?_, ?_, ?_⟩ <;> rw [he] <;> simp [passOutput]

/-- C6 witness: the theorem applied to the run whose sender 42 is not
in the whitelist `["99"]`. -/
theorem c6_whitelist_gate_witness :
    subjectOf inpC6.ev ∉ inpC6.cfg.whitelist ∧
    (interest_analyzer inpC6 storeOne = passOutput storeOne inpC6.reqPrompt ∧
     (interest_analyzer inpC6 storeOne).store.cache = storeOne.cache ∧
     (interest_analyzer inpC6 storeOne).reqPrompt = inpC6.reqPrompt) := by
  have h := c6_whitelist_gate inpC6 storeOne (by decide)
  exact ⟨by decide, h.1, h.2.1, h.2.2.2.1⟩

/-! Claim C7. -/

/-- C7: for every message that reaches step 5, the user turn is
appended to the session log before the classifier is invoked (the log
at classification time is the prior log plus the new turn), the
analysis context is exactly the log excluding that newest turn — i.e.
the prior log — the newest turn itself is what the prompt presents as
the current message, and the rendered prompt substitutes exactly the
prior history and that current-message line into the template. -/
theorem c7_append_before_classify (inp : AnalyzerInput) (st : Store) (tmpl : String)
    (hw : subjectOf inp.ev ∈ inp.cfg.whitelist)
    (hp : inp.ev.platform_name = "aiocqhttp")
    (hc : providerConfigured inp.cfg = true)
    (hok : inp.providerOk = true)
    (htm : inp.cfg.analysis_system_prompt = some tmpl) :
    (interest_analyzer inp st).appendedTurn = some (userEntryOf inp.ev inp.reqPrompt) ∧
    (interest_analyzer inp st).cacheAtClassify
      = some (setdefaultAppend st.cache inp.ev.unified_msg_origin
          (userEntryOf inp.ev inp.reqPrompt)) ∧
    lookupD (setdefaultAppend st.cache inp.ev.unified_msg_origin
        (userEntryOf inp.ev inp.reqPrompt)) inp.ev.unified_msg_origin
      = lookupD st.cache inp.ev.unified_msg_origin ++ [userEntryOf inp.ev inp.reqPrompt] ∧
    (interest_analyzer inp st).historyForAnalysis
      = some (lookupD st.cache inp.ev.unified_msg_origin) ∧
    (interest_analyzer inp st).currentForAnalysis
      = some (format_history_entry (userEntryOf inp.ev inp.reqPrompt)) ∧
    (interest_analyzer inp st).builtPrompt
      = some (renderAnalysisPrompt tmpl (awakeningOf inp.ev)
          (pyOrS inp.personaLookup inp.reqSystemPrompt)
          (formatHistory (lookupD st.cache inp.ev.unified_msg_origin))
          (format_history_entry (userEntryOf inp.ev inp.reqPrompt))) := by
  rw [interest_analyzer_gates inp st hw hp hc hok]
  have hg := analyzerMain_ghost inp st
  exact ⟨hg.1, hg.2.1,
    lookupD_setdefaultAppend_self st.cache inp.ev.unified_msg_origin
      (userEntryOf inp.ev inp.reqPrompt),
    hg.2.2.1, hg.2.2.2, analyzerMain_builtPrompt inp st tmpl htm⟩

/-- C7 witness: the theorem applied to the concrete run `inpC2` on the
store whose session already holds one turn. -/
theorem c7_append_before_classify_witness :
    (interest_analyzer inpC2 storeSess).appendedTurn
      = some (userEntryOf inpC2.ev inpC2.reqPrompt) ∧
    (interest_analyzer inpC2 storeSess).historyForAnalysis
      = some (lookupD storeSess.cache inpC2.ev.unified_msg_origin) ∧
    (interest_analyzer inpC2 storeSess).currentForAnalysis
      = some (format_history_entry (userEntryOf inpC2.ev inpC2.reqPrompt)) := by
  have h := c7_append_before_classify inpC2 storeSess
    "H:\x7bhistory\x7d|C:\x7bcurrent_message\x7d"
    (by decide) (by decide) (by decide) (by decide) (by decide)
  exact ⟨h.1, h.2.2.2.1, h.2.2.2.2.1⟩

/-! Claim C8. -/

/-- C8: for every store state and configured maximum length, loading
the durable document written by `save_history` (from a fresh empty
cache, as at process start) reproduces the trimmed in-memory mapping
exactly — the serialization round-trip law, for any log content
including empty logs and arbitrary (Unicode) strings. -/
theorem c8_persist_restore_roundtrip (maxLen : Nat) (st : Store) :
    load_history (save_history maxLen st).file [] = (save_history maxLen st).cache := by
  show load_history (some (cacheToJson (trimAll maxLen st.cache))) []
      = trimAll maxLen st.cache
  simp [load_history, jsonToCache_cacheToJson]

/-! Claim C9. -/

/-- C9: `clear` on a session with no existing log is a reported no-op
(the "nothing to clear" message, nothing changed, never an error);
`clear` on a populated session deletes the log entirely, persists
afterward (one save, which trims the remaining sessions and rewrites
the document), reports the deletion, and a subsequent read of that
session returns the empty sequence. -/
theorem c9_clear_history (maxLen : Nat) (sess : String) (st : Store) :
    (hasKey st.cache sess = false →
       clear_history maxLen sess st
         = { store := st, message := "当前会话没有聊天记录可清空。",
             deleted := false, saveCount := 0 }) ∧
    (hasKey st.cache sess = true →
       (clear_history maxLen sess st).deleted = true ∧
       (clear_history maxLen sess st).message = "当前会话的聊天记录已清空。" ∧
       (clear_history maxLen sess st).saveCount = 1 ∧
       lookupD (clear_history maxLen sess st).store.cache sess = [] ∧
       hasKey (clear_history maxLen sess st).store.cache sess = false ∧
       (clear_history maxLen sess st).store.file
         = some (cacheToJson (trimAll maxLen (delKey st.cache sess)))) := by
  constructor
  · intro h
    unfold clear_history
    rw [if_neg (by simp [h])]
  · intro h
    have he : clear_history maxLen sess st
        = { store := save_history maxLen { cache := delKey st.cache sess, file := st.file },
            message := "当前会话的聊天记录已清空。", deleted := true, saveCount := 1 } := by
      unfold clear_history
      rw [if_pos h]
    refine ⟨by rw [he], by rw [he], by rw [he], ?_, ?_, by rw [he]; rfl⟩
    · rw [he]
      show lookupD (trimAll maxLen (delKey st.cache sess)) sess = []
      rw [lookupD_trimAll, lookupD_delKey, pyTailSlice_nil]
    · rw [he]
      show hasKey (trimAll maxLen (delKey st.cache sess)) sess = false
      rw [hasKey_trimAll, hasKey_delKey]

/-- C9 witness: the theorem applied on the one-session store, clearing
the populated session `"s"` and the absent session `"t"`. -/
theorem c9_clear_history_witness :
    hasKey storeOne.cache "s" = true ∧
    (clear_history 20 "s" storeOne).deleted = true ∧
    (clear_history 20 "s" storeOne).message = "当前会话的聊天记录已清空。" ∧
    (clear_history 20 "s" storeOne).saveCount = 1 ∧
    lookupD (clear_history 20 "s" storeOne).store.cache "s" = [] ∧
    hasKey (clear_history 20 "s" storeOne).store.cache "s" = false ∧
    clear_history 20 "t" storeOne
      = { store := storeOne, message := "当前会话没有聊天记录可清空。",
          deleted := false, saveCount := 0 } := by
  have h2 := (c9_clear_history 20 "s" storeOne).2 (by decide)
  have h1 := (c9_clear_history 20 "t" storeOne).1 (by decide)
  exact ⟨by decide, h2.1, h2.2.1, h2.2.2.1, h2.2.2.2.1, h2.2.2.2.2.1, h1⟩

/-! Claim C10. -/

/-- C10: for every inbound request whose prompt is empty or missing,
the user turn appended to history records the fixed placeholder
`"User sent an empty or non-text message."` (prefixed with the
direct-mention marker when applicable) instead of the empty string, and
that placeholder (inside the formatted current-message line) is what
the classifier prompt presents as the current message. -/
theorem c10_empty_prompt_placeholder (inp : AnalyzerInput) (st : Store)
    (hw : subjectOf inp.ev ∈ inp.cfg.whitelist)
    (hp : inp.ev.platform_name = "aiocqhttp")
    (hc : providerConfigured inp.cfg = true)
    (hok : inp.providerOk = true)
    (hpr : inp.reqPrompt = none ∨ inp.reqPrompt = some "") :
    (interest_analyzer inp st).appendedTurn = some (userEntryOf inp.ev inp.reqPrompt) ∧
    (userEntryOf inp.ev inp.reqPrompt).content
      = (if inp.ev.is_at_or_wake_command
         then "[Direct Mention] " ++ placeholderMessage
         else placeholderMessage) ∧
    (interest_analyzer inp st).currentForAnalysis
      = some (format_history_entry (userEntryOf inp.ev inp.reqPrompt)) ∧
    format_history_entry (userEntryOf inp.ev inp.reqPrompt)
      = "user (" ++ inp.ev.sender_name ++ "/" ++ inp.ev.sender_id ++ "): "
          ++ (userEntryOf inp.ev inp.reqPrompt).content := by
  rw [interest_analyzer_gates inp st hw hp hc hok]
  have hg := analyzerMain_ghost inp st
  have hcm : currentMessageOf inp.reqPrompt = placeholderMessage := by
    rcases hpr with h | h <;> simp [currentMessageOf, h]
  refine ⟨hg.1, ?_, hg.2.2.2, ?_⟩
  · simp [userEntryOf, hcm]
  · simp [format_history_entry, userEntryOf]

/-- C10 witness: the theorem applied to the concrete run with an empty
request prompt. -/
theorem c10_empty_prompt_placeholder_witness :
    inpC10.reqPrompt = some "" ∧
    (userEntryOf inpC10.ev inpC10.reqPrompt).content = placeholderMessage ∧
    (interest_analyzer inpC10 storeEmpty).currentForAnalysis
      = some (format_history_entry (userEntryOf inpC10.ev inpC10.reqPrompt)) := by
  have h := c10_empty_prompt_placeholder inpC10 storeEmpty
    (by decide) (by decide) (by decide) (by decide) (Or.inr rfl)
  refine ⟨rfl, ?_, h.2.2.1⟩
  have h2 := h.2.1
  simpa using h2

end PIC
